import Mathlib

/-!
# SafeFood platform schema and row-level-security policies: a verification model

Shallow embedding of the SafeFood platform core.  The repository's only
domain logic is a SQL schema with row-level-security (RLS) policies
(tables `users`, `organizations`, `charities`, `volunteers`, `donations`,
`pickups`, `impact_metrics`; enum types `user_role`, `donation_status`,
`food_type`; one `CREATE POLICY` statement per declared policy).
Tables become lists of row structures, UUIDs become `Nat` identifiers,
timestamps become `Nat`, SQL `DECIMAL`/`DOUBLE PRECISION` columns become
`Rat` (none of the verified properties computes with them), and each
`CREATE POLICY` becomes an executable predicate evaluated under
PostgreSQL's permissive-policy semantics: a command on a row is permitted
iff some policy applicable to that command accepts the row, and a table
with RLS enabled but no applicable policy denies everything.

Components described only in the specification and absent from the
repository's code (the Donation Registry transition function, the
application-layer single-active-pickup discipline, the Impact Aggregator
upsert) are modelled from the specification's words and marked as such in
their doc comments.
-/

namespace SafeFood

/-- `CREATE TYPE user_role AS ENUM ('admin', 'donor', 'charity', 'volunteer')`. -/
inductive UserRole where
  | admin
  | donor
  | charity
  | volunteer
deriving DecidableEq, Repr

/-- `CREATE TYPE donation_status AS ENUM
    ('pending', 'assigned', 'picked_up', 'delivered', 'cancelled')`. -/
inductive DonationStatus where
  | pending
  | assigned
  | picked_up
  | delivered
  | cancelled
deriving DecidableEq, Repr

/-- `CREATE TYPE food_type AS ENUM
    ('prepared_meals', 'groceries', 'produce', 'bakery', 'other')`. -/
inductive FoodType where
  | prepared_meals
  | groceries
  | produce
  | bakery
  | other
deriving DecidableEq, Repr

/-- The SQL enum labels of `donation_status`, in declaration order. -/
def donationStatusLabels : List String :=
  ["pending", "assigned", "picked_up", "delivered", "cancelled"]

/-- The SQL enum labels of `food_type`, in declaration order. -/
def foodTypeLabels : List String :=
  ["prepared_meals", "groceries", "produce", "bakery", "other"]

/-- Rendering of a stored `donation_status` value to its SQL label. -/
def donationStatusLabel : DonationStatus → String
  | .pending => "pending"
  | .assigned => "assigned"
  | .picked_up => "picked_up"
  | .delivered => "delivered"
  | .cancelled => "cancelled"

/-- Acceptance of an input literal as a `donation_status` value: the SQL
    enum type accepts exactly its declared labels and rejects all else. -/
def donationStatusOfLabel (s : String) : Option DonationStatus :=
  if s = "pending" then some .pending
  else if s = "assigned" then some .assigned
  else if s = "picked_up" then some .picked_up
  else if s = "delivered" then some .delivered
  else if s = "cancelled" then some .cancelled
  else none

/-- Rendering of a stored `food_type` value to its SQL label. -/
def foodTypeLabel : FoodType → String
  | .prepared_meals => "prepared_meals"
  | .groceries => "groceries"
  | .produce => "produce"
  | .bakery => "bakery"
  | .other => "other"

/-- Acceptance of an input literal as a `food_type` value. -/
def foodTypeOfLabel (s : String) : Option FoodType :=
  if s = "prepared_meals" then some .prepared_meals
  else if s = "groceries" then some .groceries
  else if s = "produce" then some .produce
  else if s = "bakery" then some .bakery
  else if s = "other" then some .other
  else none

/-- A row of `CREATE TABLE users` (id, full_name, phone, role,
    created_at, updated_at). -/
structure UserRow where
  id : Nat
  full_name : String
  phone : Option String
  role : UserRole
  created_at : Nat
  updated_at : Nat
deriving DecidableEq, Repr

/-- A row of `CREATE TABLE organizations`. -/
structure OrganizationRow where
  id : Nat
  user_id : Nat
  name : String
  type : String
  address : String
  latitude : Rat
  longitude : Rat
  contact_person : String
  contact_phone : String
  verified : Bool
  created_at : Nat
deriving DecidableEq, Repr

/-- A row of `CREATE TABLE charities`. -/
structure CharityRow where
  id : Nat
  user_id : Nat
  name : String
  registration_number : String
  address : String
  latitude : Rat
  longitude : Rat
  contact_person : String
  contact_phone : String
  verified : Bool
  created_at : Nat
deriving DecidableEq, Repr

/-- A row of `CREATE TABLE volunteers` (`latitude`, `longitude`,
    `last_active` are nullable). -/
structure VolunteerRow where
  id : Nat
  user_id : Nat
  available : Bool
  latitude : Option Rat
  longitude : Option Rat
  last_active : Option Nat
  total_pickups : Int
  rating : Rat
  created_at : Nat
deriving DecidableEq, Repr

/-- A row of `CREATE TABLE donations`. -/
structure DonationRow where
  id : Nat
  organization_id : Nat
  food_type : FoodType
  quantity : Int
  description : String
  expiry : Nat
  pickup_window_start : Nat
  pickup_window_end : Nat
  status : DonationStatus
  temperature_requirements : Option String
  handling_instructions : Option String
  created_at : Nat
  updated_at : Nat
deriving DecidableEq, Repr

/-- A row of `CREATE TABLE pickups` (`charity_id`, `volunteer_id` and the
    progress columns are nullable). -/
structure PickupRow where
  id : Nat
  donation_id : Nat
  charity_id : Option Nat
  volunteer_id : Option Nat
  assigned_at : Nat
  picked_up_at : Option Nat
  delivered_at : Option Nat
  proof_of_pickup : Option String
  proof_of_delivery : Option String
  notes : Option String
  rating : Option Int
  created_at : Nat
deriving DecidableEq, Repr

/-- A row of `CREATE TABLE impact_metrics`. -/
structure ImpactMetricRow where
  id : Nat
  date : Nat
  meals_saved : Int
  kg_food_saved : Rat
  co2_saved : Rat
  beneficiaries_served : Int
  created_at : Nat
  updated_at : Nat
deriving DecidableEq, Repr

/-- The database state: one list of rows per table of the schema. -/
structure DBState where
  users : List UserRow
  organizations : List OrganizationRow
  charities : List CharityRow
  volunteers : List VolunteerRow
  donations : List DonationRow
  pickups : List PickupRow
  impact_metrics : List ImpactMetricRow
deriving DecidableEq, Repr

/-- An authenticated principal: `auth.uid()` is its `uid`.  All
    principals modelled here are authenticated, so the policy condition
    `auth.role() = 'authenticated'` holds for every `Principal`. -/
structure Principal where
  uid : Nat
deriving DecidableEq, Repr

/-- A SQL command class, as distinguished by RLS policy applicability. -/
inductive SqlCmd where
  | select
  | insert
  | update
  | delete
deriving DecidableEq, Repr

/-- The commands a `CREATE POLICY` statement covers: `FOR SELECT`
    restricts it to `SELECT`; a policy without a `FOR` clause is
    `FOR ALL`. -/
inductive PolicyScope where
  | forSelect
  | forAll
deriving DecidableEq, Repr

/-- One `CREATE POLICY` statement on a table with rows of type `Row`:
    its name, its command scope, and its `USING` condition (which also
    serves as the `WITH CHECK` condition when none is declared, as in
    this schema).  The condition may consult the whole database state,
    since the schema's conditions contain subqueries. -/
structure Policy (Row : Type) where
  name : String
  scope : PolicyScope
  cond : DBState → Principal → Row → Bool

/-- Whether a policy with the given scope applies to the given command. -/
def PolicyScope.applies : PolicyScope → SqlCmd → Bool
  | .forSelect, .select => true
  | .forSelect, _ => false
  | .forAll, _ => true

/-- PostgreSQL permissive-policy semantics on a table with RLS enabled:
    command `c` by principal `p` on row `r` is permitted iff some policy
    applicable to `c` accepts `r`.  With no applicable policy the table
    denies the command (RLS default deny). -/
def permittedBy {Row : Type} (ps : List (Policy Row)) (c : SqlCmd)
    (s : DBState) (p : Principal) (r : Row) : Bool :=
  ps.any (fun pol => pol.scope.applies c && pol.cond s p r)

/-- `c` is a write command (`INSERT`, `UPDATE` or `DELETE`). -/
def SqlCmd.isWrite : SqlCmd → Bool
  | .select => false
  | _ => true

/-- The declared policies on `users`.  The schema declares exactly one,
    `FOR SELECT USING (auth.uid() = id)`; with RLS enabled and no other
    policy, every write of `users` is denied. -/
def usersPolicies : List (Policy UserRow) :=
  [⟨"Users can read own data", .forSelect, fun _ p u => p.uid == u.id⟩]

/-- The declared policies on `organizations`.

    The second policy's condition is
    `auth.uid() IN (SELECT user_id FROM users WHERE role = 'donor')`.
    The `users` table has no `user_id` column, so by SQL name scoping the
    unqualified `user_id` in the subquery resolves to the outer
    `organizations.user_id`: the subquery is correlated and returns one
    copy of the organization row's `user_id` per `users` row whose role
    is `donor`.  The condition therefore holds iff the principal is the
    row's owning user AND at least one user with role `donor` exists. -/
def organizationsPolicies : List (Policy OrganizationRow) :=
  [⟨"Organizations visible to authenticated users", .forSelect,
      fun _ _ _ => true⟩,
   ⟨"Organizations can manage their own data", .forAll,
      fun s p o => s.users.any (fun u => u.role == .donor && p.uid == o.user_id)⟩]

/-- The declared policies on `charities`; the manage policy's subquery
    `SELECT user_id FROM users WHERE role = 'charity'` is correlated on
    the outer `charities.user_id` exactly as for `organizations`. -/
def charitiesPolicies : List (Policy CharityRow) :=
  [⟨"Charities visible to authenticated users", .forSelect,
      fun _ _ _ => true⟩,
   ⟨"Charities can manage their own data", .forAll,
      fun s p c => s.users.any (fun u => u.role == .charity && p.uid == c.user_id)⟩]

/-- The declared policies on `volunteers`; the manage policy's subquery
    `SELECT user_id FROM users WHERE role = 'volunteer'` is correlated on
    the outer `volunteers.user_id` exactly as for `organizations`. -/
def volunteersPolicies : List (Policy VolunteerRow) :=
  [⟨"Volunteers visible to authenticated users", .forSelect,
      fun _ _ _ => true⟩,
   ⟨"Volunteers can manage their own data", .forAll,
      fun s p v => s.users.any (fun u => u.role == .volunteer && p.uid == v.user_id)⟩]

/-- The declared policies on `donations`.  The manage policy's condition
    `organization_id IN (SELECT id FROM organizations WHERE user_id = auth.uid())`
    is an uncorrelated subquery (`organizations` has both columns): the
    donation's organization must be owned by the principal. -/
def donationsPolicies : List (Policy DonationRow) :=
  [⟨"Donations visible to authenticated users", .forSelect,
      fun _ _ _ => true⟩,
   ⟨"Organizations can manage their donations", .forAll,
      fun s p d => s.organizations.any (fun o => o.id == d.organization_id && o.user_id == p.uid)⟩]

/-- The declared policies on `pickups`.  The schema declares exactly one,
    `FOR SELECT`, whose condition admits the assigned volunteer's user,
    the assigned charity's user, and the donating organization's user
    (joined through `donations`); the unqualified `volunteer_id`,
    `charity_id` and `donation_id` in its subqueries resolve to the outer
    `pickups` row's columns.  No write policy is declared, so every write
    of `pickups` is denied. -/
def pickupsPolicies : List (Policy PickupRow) :=
  [⟨"Pickups visible to relevant parties", .forSelect,
      fun s p k =>
        s.volunteers.any (fun v => k.volunteer_id == some v.id && p.uid == v.user_id)
        || s.charities.any (fun c => k.charity_id == some c.id && p.uid == c.user_id)
        || s.organizations.any (fun o =>
             s.donations.any (fun d => d.organization_id == o.id && d.id == k.donation_id)
             && p.uid == o.user_id)⟩]

/-- The declared policies on `impact_metrics`: readable by any
    authenticated principal, no write policy. -/
def impactMetricsPolicies : List (Policy ImpactMetricRow) :=
  [⟨"Impact metrics visible to authenticated users", .forSelect,
      fun _ _ _ => true⟩]

/-- The error taxonomy of §7 of the specification. -/
inductive DomainError where
  | Forbidden
  | InvalidTransition
  | NoCandidate
  | NotFound
  | Conflict
  | Unavailable
deriving DecidableEq, Repr

/-- A write request against the `users` table: an `INSERT` of a row, an
    `UPDATE` rewriting each permitted row with `f`, or a `DELETE` of the
    permitted rows matched by `sel`.  Each is gated row-by-row by the
    declared RLS policies (`UPDATE`/`DELETE` only touch rows whose
    `USING` condition holds; an `INSERT` whose `WITH CHECK` fails is
    refused). -/
inductive UsersWrite where
  | ins (u : UserRow)
  | upd (f : UserRow → UserRow)
  | del (sel : UserRow → Bool)

/-- Applying a `UsersWrite` by principal `p` under the declared RLS
    policies on `users`. -/
def applyUsersWrite (s : DBState) (p : Principal) (w : UsersWrite) : DBState :=
  match w with
  | .ins u =>
      if permittedBy usersPolicies .insert s p u then
        { s with users := s.users ++ [u] }
      else s
  | .upd f =>
      { s with users := s.users.map (fun u =>
          if permittedBy usersPolicies .update s p u then f u else u) }
  | .del sel =>
      { s with users := s.users.filter (fun u =>
          !(sel u && permittedBy usersPolicies .delete s p u)) }

/-- Modelled from the spec: the Donation Registry's status state machine
    (§4.1).  The repository's schema declares the `donation_status` enum
    and its default `'pending'` but contains no transition code; the
    edges below are the spec's
    `pending → assigned → picked_up → delivered`, with `cancelled`
    reachable from `pending` and `assigned` only. -/
def allowedTransition : DonationStatus → DonationStatus → Bool
  | .pending, .assigned => true
  | .assigned, .picked_up => true
  | .picked_up, .delivered => true
  | .pending, .cancelled => true
  | .assigned, .cancelled => true
  | _, _ => false

/-- Modelled from the spec: a status-transition request against the
    Donation Registry (§4.1, §7).  Any move that is not an edge of the
    state machine fails `InvalidTransition` and returns the state
    unchanged; a missing donation fails `NotFound`. -/
def transitionDonation (s : DBState) (did : Nat) (t : DonationStatus) :
    DBState × Option DomainError :=
  match s.donations.find? (fun d => d.id == did) with
  | none => (s, some .NotFound)
  | some d =>
      if allowedTransition d.status t then
        ({ s with donations := s.donations.map (fun d2 =>
             if d2.id == did then { d2 with status := t } else d2) }, none)
      else (s, some .InvalidTransition)

/-- Modelled from the spec: a Pickup row as kept by the application
    layer.  The schema's `pickups` table has no cancellation column; the
    spec's `cancelAssignment` "deletes/deactivates the Pickup row"
    (§4.3), modelled here as a `cancelled` flag, so an active pickup is a
    row with `cancelled = false`. -/
structure AppPickup where
  id : Nat
  donation_id : Nat
  volunteer_id : Nat
  cancelled : Bool
deriving DecidableEq, Repr

/-- The application-layer state touched by the pickup-assignment
    discipline: the donations and the (modelled) pickup rows. -/
structure AppState where
  donations : List DonationRow
  pickups : List AppPickup
deriving DecidableEq, Repr

/-- The active (non-cancelled) pickup rows referencing donation `did`. -/
def activePickupsFor (did : Nat) (ks : List AppPickup) : List AppPickup :=
  ks.filter (fun k => k.donation_id == did && !k.cancelled)

/-- Status rewrite of one donation in a table. -/
def setStatus (ds : List DonationRow) (did : Nat) (t : DonationStatus) :
    List DonationRow :=
  ds.map (fun d => if d.id == did then { d with status := t } else d)

/-- Deactivation of one pickup row by id. -/
def deactivatePickup (ks : List AppPickup) (pid : Nat) : List AppPickup :=
  ks.map (fun k => if k.id == pid then { k with cancelled := true } else k)

/-- Deactivation of every pickup row referencing donation `did`. -/
def deactivatePickupsFor (ks : List AppPickup) (did : Nat) : List AppPickup :=
  ks.map (fun k => if k.donation_id == did then { k with cancelled := true } else k)

/-- Modelled from the spec: the operations of §4.1–§4.3 that touch
    donations or pickups. -/
inductive AppOp where
  | createDonation (d : DonationRow)
  | assign (pickupId donationId volunteerId : Nat)
  | confirmPickup (pickupId : Nat)
  | confirmDelivery (pickupId : Nat)
  | cancelAssignment (pickupId : Nat)
  | cancelDonation (donationId : Nat)

/-- Modelled from the spec: one application-layer step.  `create` posts a
    `pending` donation (§4.1); `assign` is the commit of `match` (§4.2),
    guarded by the §9 application-layer uniqueness constraint "one
    non-cancelled Pickup per Donation"; `confirmPickup`/`confirmDelivery`
    advance the donation (§4.3); `cancelAssignment` reverts
    `assigned → pending` and deactivates the pickup (§4.3);
    `cancelDonation` cancels from `pending`/`assigned` and cancels the
    pickup (§4.1).  Every failure returns the state unchanged. -/
def appStep (s : AppState) (op : AppOp) : AppState × Option DomainError :=
  match op with
  | .createDonation d =>
      ({ s with donations := s.donations ++ [{ d with status := .pending }] }, none)
  | .assign kid did vid =>
      match s.donations.find? (fun d => d.id == did) with
      | none => (s, some .NotFound)
      | some d =>
          if !allowedTransition d.status .assigned then (s, some .InvalidTransition)
          else if !(activePickupsFor did s.pickups).isEmpty then (s, some .Conflict)
          else ({ donations := setStatus s.donations did .assigned,
                  pickups := s.pickups ++ [⟨kid, did, vid, false⟩] }, none)
  | .confirmPickup kid =>
      match s.pickups.find? (fun k => k.id == kid) with
      | none => (s, some .NotFound)
      | some k =>
          match s.donations.find? (fun d => d.id == k.donation_id) with
          | none => (s, some .NotFound)
          | some d =>
              if allowedTransition d.status .picked_up && d.status == .assigned then
                ({ s with donations := setStatus s.donations k.donation_id .picked_up }, none)
              else (s, some .InvalidTransition)
  | .confirmDelivery kid =>
      match s.pickups.find? (fun k => k.id == kid) with
      | none => (s, some .NotFound)
      | some k =>
          match s.donations.find? (fun d => d.id == k.donation_id) with
          | none => (s, some .NotFound)
          | some d =>
              if allowedTransition d.status .delivered then
                ({ s with donations := setStatus s.donations k.donation_id .delivered }, none)
              else (s, some .InvalidTransition)
  | .cancelAssignment kid =>
      match s.pickups.find? (fun k => k.id == kid) with
      | none => (s, some .NotFound)
      | some k =>
          match s.donations.find? (fun d => d.id == k.donation_id) with
          | none => (s, some .NotFound)
          | some d =>
              if d.status == .assigned then
                ({ donations := setStatus s.donations k.donation_id .pending,
                   pickups := deactivatePickup s.pickups kid }, none)
              else (s, some .InvalidTransition)
  | .cancelDonation did =>
      match s.donations.find? (fun d => d.id == did) with
      | none => (s, some .NotFound)
      | some d =>
          if allowedTransition d.status .cancelled then
            ({ donations := setStatus s.donations did .cancelled,
               pickups := deactivatePickupsFor s.pickups did }, none)
          else (s, some .InvalidTransition)

/-- The application-layer states reachable from the empty state by
    `appStep` (failed steps return the unchanged state). -/
inductive AppReachable : AppState → Prop
  | init : AppReachable ⟨[], []⟩
  | step (s : AppState) (op : AppOp) (s2 : AppState) (e : Option DomainError) :
      AppReachable s → appStep s op = (s2, e) → AppReachable s2

/-- Modelled from the spec: the Impact Aggregator's upsert on
    `confirmDelivery` (§4.5; §3: "append/update keyed by `date`").
    `today` is the current date; the increments come from the delivered
    donation and the configured conversion factors.  An existing row for
    `today` is updated in place; otherwise a fresh row with id `newId` is
    appended. -/
def upsertImpact (rows : List ImpactMetricRow) (today : Nat)
    (mealsInc : Int) (kgInc co2Inc : Rat) (benInc : Int) (newId now : Nat) :
    List ImpactMetricRow :=
  if rows.any (fun r => r.date == today) then
    rows.map (fun r =>
      if r.date == today then
        { r with
          meals_saved := r.meals_saved + mealsInc,
          kg_food_saved := r.kg_food_saved + kgInc,
          co2_saved := r.co2_saved + co2Inc,
          beneficiaries_served := r.beneficiaries_served + benInc,
          updated_at := now }
      else r)
  else rows ++ [⟨newId, today, mealsInc, kgInc, co2Inc, benInc, now, now⟩]

/-- At most one row per `date` value. -/
def datesUnique (rows : List ImpactMetricRow) : Prop :=
  rows.Pairwise (fun a b => a.date ≠ b.date)

/-! ### Concrete example rows and states -/

/-- Example admin user (uid 1). -/
def exAdmin : UserRow := ⟨1, "Amira", none, .admin, 0, 0⟩

/-- Example donor user (uid 2), owner of `exOrg`. -/
def exDonor : UserRow := ⟨2, "Dalia", none, .donor, 0, 0⟩

/-- Example volunteer user (uid 3), user of `exVol`. -/
def exVolUser : UserRow := ⟨3, "Walid", none, .volunteer, 0, 0⟩

/-- Example charity user (uid 4), user of `exCharity`. -/
def exCharityUser : UserRow := ⟨4, "Rania", none, .charity, 0, 0⟩

/-- Example organization (id 10) owned by user 2. -/
def exOrg : OrganizationRow :=
  ⟨10, 2, "Resto", "restaurant", "addr", 0, 0, "Dalia", "0100", true, 0⟩

/-- Example charity (id 30) with user 4. -/
def exCharity : CharityRow :=
  ⟨30, 4, "Care", "R-1", "addr", 0, 0, "Rania", "0101", true, 0⟩

/-- Example volunteer (id 20) with user 3. -/
def exVol : VolunteerRow :=
  ⟨20, 3, true, none, none, none, 0, 5, 0⟩

/-- Example donation (id 40) of `exOrg`, currently `assigned`. -/
def exDonation : DonationRow :=
  ⟨40, 10, .produce, 10, "veg", 100, 10, 20, .assigned, none, none, 0, 0⟩

/-- Example pickup (id 50) of donation 40, assigned to volunteer 20 and
    charity 30. -/
def exPickup : PickupRow :=
  ⟨50, 40, some 30, some 20, 5, none, none, none, none, none, none, 0⟩

/-- Example database state containing the rows above. -/
def exDB : DBState :=
  ⟨[exAdmin, exDonor, exVolUser, exCharityUser], [exOrg], [exCharity],
   [exVol], [exDonation], [exPickup], []⟩

/-- Example donation posted into the application layer (starts `pending`). -/
def exNewDonation : DonationRow :=
  ⟨40, 10, .produce, 10, "veg", 100, 10, 20, .pending, none, none, 0, 0⟩

/-- Example reachable application-layer state: the empty state after
    posting donation 40 and assigning pickup 50 to volunteer 20. -/
def exApp2 : AppState :=
  (appStep (appStep ⟨[], []⟩ (.createDonation exNewDonation)).1
           (.assign 50 40 20)).1

/-- Example impact-metric row for date 7. -/
def exMetric : ImpactMetricRow := ⟨60, 7, 0, 0, 0, 0, 0, 0⟩

/-! ### Helper lemmas -/

/-- Filtering after a map that never turns a row the filter rejects into
    one it accepts cannot increase the filtered length. -/
theorem filter_length_le_of_map {α : Type} (g : α → α) (pred : α → Bool) :
    ∀ l : List α, (∀ x ∈ l, pred (g x) = true → pred x = true) →
      ((l.map g).filter pred).length ≤ (l.filter pred).length := by
  intro l
  induction l with
  | nil => intro _; simp
  | cons x xs ih =>
      intro h
      have hx := h x (List.mem_cons_self x xs)
      have ihx := ih (fun y hy => h y (List.mem_cons_of_mem x hy))
      rw [List.map_cons, List.filter_cons, List.filter_cons]
      cases hgx : pred (g x) with
      | true =>
          rw [hx hgx]
          simpa using Nat.succ_le_succ ihx
      | false =>
          cases hpx : pred x with
          | true => simpa using Nat.le_succ_of_le ihx
          | false => simpa using ihx

/-- Under pairwise-distinct dates, at most one row matches any date. -/
theorem length_filter_date_le_one :
    ∀ (rows : List ImpactMetricRow), datesUnique rows →
      ∀ dte : Nat, (rows.filter (fun r => r.date == dte)).length ≤ 1 := by
  intro rows
  induction rows with
  | nil => intro _ dte; simp
  | cons x xs ih =>
      intro h dte
      rw [datesUnique, List.pairwise_cons] at h
      rw [List.filter_cons]
      cases hx : (x.date == dte) with
      | true =>
          have hxs : xs.filter (fun r => r.date == dte) = [] := by
            rw [List.filter_eq_nil_iff]
            intro a ha
            have hne := h.1 a ha
            have hxd : x.date = dte := by simpa using hx
            simp [← hxd, Ne.symm hne]
          simp [hxs]
      | false =>
          simpa using ih h.2 dte

/-! ### Claim theorems -/

/-- C10: under the declared policies, a read of a `users` row succeeds
    exactly when the principal reads its own row (`auth.uid() = id`); no
    principal, an admin included, can read another user's record. -/
theorem users_read_self_only :
    ∀ (s : DBState) (p : Principal) (u : UserRow),
      permittedBy usersPolicies .select s p u = true ↔ p.uid = u.id := by
  intro s p u
  simp [permittedBy, usersPolicies, PolicyScope.applies]

/-- C7: the `users` table declares only a `SELECT` policy, so with RLS
    enabled every insert, update and delete of `users` is denied for
    every principal and the table — in particular every user's `role` —
    never changes through any available operation. -/
theorem users_role_immutable :
    ∀ (s : DBState) (p : Principal) (w : UsersWrite),
      applyUsersWrite s p w = s := by
  intro s p w
  cases w with
  | ins u => simp [applyUsersWrite, permittedBy, usersPolicies, PolicyScope.applies]
  | upd f => simp [applyUsersWrite, permittedBy, usersPolicies, PolicyScope.applies]
  | del sel => simp [applyUsersWrite, permittedBy, usersPolicies, PolicyScope.applies]

/-- C2 counterexample: the claim says a write of a Pickup by the assigned
    Volunteer's user is permitted (here the Donation is `assigned`, the
    §4.3 `confirmPickup` situation), but the declared policies deny it:
    `pickups` has no write policy at all. -/
theorem pickups_write_claim_cex :
    (exDB.volunteers.any (fun v => exPickup.volunteer_id == some v.id && v.user_id == 3)) = true
    ∧ (exDB.donations.any (fun d => d.id == exPickup.donation_id && d.status == DonationStatus.assigned)) = true
    ∧ permittedBy pickupsPolicies .update exDB ⟨3⟩ exPickup = false :=
  ⟨rfl, rfl, rfl⟩

/-- C2 amended: the schema declares only a `SELECT` policy on `pickups`,
    so with RLS enabled every write (insert/update/delete) of a Pickup by
    every principal — assigned volunteer, assigned charity and admin
    included — is denied. -/
theorem pickups_write_all_denied :
    ∀ (c : SqlCmd) (s : DBState) (p : Principal) (k : PickupRow),
      c.isWrite = true → permittedBy pickupsPolicies c s p k = false := by
  intro c s p k hc
  cases c
  · simp [SqlCmd.isWrite] at hc
  · rfl
  · rfl
  · rfl

/-- Witness for C2's amended theorem at a concrete write. -/
theorem pickups_write_all_denied_witness :
    permittedBy pickupsPolicies .update exDB ⟨3⟩ exPickup = false :=
  pickups_write_all_denied .update exDB ⟨3⟩ exPickup rfl

/-- C4 counterexample: the claim says an admin may write any Donation,
    but the only write policy on `donations` admits just the owning
    organization's user; the admin (uid 1, not owner of donation 40's
    organization) is denied. -/
theorem donations_write_claim_cex :
    (exDB.users.any (fun u => u.id == 1 && u.role == UserRole.admin)) = true
    ∧ permittedBy donationsPolicies .update exDB ⟨1⟩ exDonation = false :=
  ⟨rfl, rfl⟩

/-- C4 amended: a write of a Donation row is permitted exactly when the
    principal owns the donation's organization; admins receive no
    special access from the declared policies. -/
theorem donations_write_owner_only :
    ∀ (c : SqlCmd) (s : DBState) (p : Principal) (d : DonationRow),
      c.isWrite = true →
      (permittedBy donationsPolicies c s p d = true ↔
        ∃ o ∈ s.organizations, o.id = d.organization_id ∧ o.user_id = p.uid) := by
  intro c s p d hc
  cases c
  · simp [SqlCmd.isWrite] at hc
  all_goals
    simp [permittedBy, donationsPolicies, PolicyScope.applies, List.any_eq_true]

/-- Witness for C4's amended theorem: the owning organization's user
    (uid 2) may update donation 40. -/
theorem donations_write_owner_only_witness :
    permittedBy donationsPolicies .update exDB ⟨2⟩ exDonation = true :=
  (donations_write_owner_only .update exDB ⟨2⟩ exDonation rfl).mpr
    ⟨exOrg, List.mem_singleton.mpr rfl, rfl, rfl⟩

/-- C1 counterexample: the claim says an admin may write any
    Organization/Charity/Volunteer profile row, but the declared write
    policies admit only the owning user (the correlated subquery compares
    `auth.uid()` with the row's `user_id`); the admin (uid 1, not owner
    of organization 10) is denied. -/
theorem profile_write_claim_cex :
    (exDB.users.any (fun u => u.id == 1 && u.role == UserRole.admin)) = true
    ∧ permittedBy organizationsPolicies .update exDB ⟨1⟩ exOrg = false :=
  ⟨rfl, rfl⟩

/-- C1 amended: a write of an Organization/Charity/Volunteer row is
    permitted exactly when the principal is the row's owning user and at
    least one user with the family's role (donor/charity/volunteer
    respectively) exists in `users`.  The principal's own role is never
    consulted (the subquery `SELECT user_id FROM users WHERE role = ...`
    is correlated on the outer row's `user_id`, since `users` has no
    `user_id` column), and admins receive no special access. -/
theorem profile_write_characterization :
    ∀ (c : SqlCmd) (s : DBState) (p : Principal), c.isWrite = true →
      (∀ o : OrganizationRow,
         permittedBy organizationsPolicies c s p o = true ↔
           (p.uid = o.user_id ∧ ∃ u ∈ s.users, u.role = UserRole.donor))
      ∧ (∀ ch : CharityRow,
         permittedBy charitiesPolicies c s p ch = true ↔
           (p.uid = ch.user_id ∧ ∃ u ∈ s.users, u.role = UserRole.charity))
      ∧ (∀ v : VolunteerRow,
         permittedBy volunteersPolicies c s p v = true ↔
           (p.uid = v.user_id ∧ ∃ u ∈ s.users, u.role = UserRole.volunteer)) := by
  intro c s p hc
  cases c
  · simp [SqlCmd.isWrite] at hc
  all_goals
    refine ⟨fun o => ?_, fun ch => ?_, fun v => ?_⟩ <;>
      simp [permittedBy, organizationsPolicies, charitiesPolicies,
            volunteersPolicies, PolicyScope.applies, List.any_eq_true] <;>
      constructor
    · rintro ⟨u, hu, hur, hpe⟩; exact ⟨hpe, u, hu, hur⟩
    · rintro ⟨hpe, u, hu, hur⟩; exact ⟨u, hu, hur, hpe⟩
    · rintro ⟨u, hu, hur, hpe⟩; exact ⟨hpe, u, hu, hur⟩
    · rintro ⟨hpe, u, hu, hur⟩; exact ⟨u, hu, hur, hpe⟩
    · rintro ⟨u, hu, hur, hpe⟩; exact ⟨hpe, u, hu, hur⟩
    · rintro ⟨hpe, u, hu, hur⟩; exact ⟨u, hu, hur, hpe⟩

/-- Witness for C1's amended theorem: the owning donor user (uid 2) may
    update organization 10. -/
theorem profile_write_characterization_witness :
    permittedBy organizationsPolicies .update exDB ⟨2⟩ exOrg = true :=
  ((profile_write_characterization .update exDB ⟨2⟩ rfl).1 exOrg).mpr
    ⟨rfl, exDonor, List.mem_cons_of_mem _ (List.mem_cons_self _ _), rfl⟩

/-- C3 counterexample: the claim says an admin may read any Pickup, but
    the declared `SELECT` policy on `pickups` admits only the assigned
    volunteer's, assigned charity's and donating organization's users;
    the admin (uid 1, none of those for pickup 50) is denied. -/
theorem pickups_read_claim_cex :
    (exDB.users.any (fun u => u.id == 1 && u.role == UserRole.admin)) = true
    ∧ permittedBy pickupsPolicies .select exDB ⟨1⟩ exPickup = false :=
  ⟨rfl, rfl⟩

/-- C3 amended: a read of a Pickup row succeeds exactly when the
    principal is the assigned Volunteer's user, the assigned Charity's
    user, or the donating Organization's user (joined through the
    pickup's Donation); admins receive no special access. -/
theorem pickups_read_characterization :
    ∀ (s : DBState) (p : Principal) (k : PickupRow),
      permittedBy pickupsPolicies .select s p k = true ↔
        ((∃ v ∈ s.volunteers, k.volunteer_id = some v.id ∧ p.uid = v.user_id)
         ∨ (∃ c ∈ s.charities, k.charity_id = some c.id ∧ p.uid = c.user_id)
         ∨ (∃ o ∈ s.organizations,
              (∃ d ∈ s.donations, d.organization_id = o.id ∧ d.id = k.donation_id)
              ∧ p.uid = o.user_id)) := by
  intro s p k
  simp [permittedBy, pickupsPolicies, PolicyScope.applies, List.any_eq_true]
  exact or_assoc

/-- C5: the Donation Registry's transition operation moves a status only
    along the edges pending→assigned→picked_up→delivered plus
    pending→cancelled and assigned→cancelled (so `delivered` and
    `cancelled` are terminal), and any request for a move off these edges
    fails `InvalidTransition` with the state returned unchanged. -/
theorem donation_status_machine :
    (∀ a b : DonationStatus,
       allowedTransition a b = true ↔
         ((a = .pending ∧ b = .assigned) ∨ (a = .assigned ∧ b = .picked_up)
          ∨ (a = .picked_up ∧ b = .delivered) ∨ (a = .pending ∧ b = .cancelled)
          ∨ (a = .assigned ∧ b = .cancelled)))
    ∧ (∀ (s : DBState) (did : Nat) (t : DonationStatus) (d : DonationRow),
         s.donations.find? (fun d2 => d2.id == did) = some d →
         allowedTransition d.status t = false →
         transitionDonation s did t = (s, some DomainError.InvalidTransition))
    ∧ (∀ (s : DBState) (did : Nat) (t : DonationStatus) (s2 : DBState),
         transitionDonation s did t = (s2, none) →
         ∃ d, s.donations.find? (fun d2 => d2.id == did) = some d
              ∧ allowedTransition d.status t = true) := by
  refine ⟨?_, ?_, ?_⟩
  · intro a b; cases a <;> cases b <;> decide
  · intro s did t d hfind hnot
    simp only [transitionDonation, hfind, hnot]
    simp
  · intro s did t s2 h
    simp only [transitionDonation] at h
    cases hfind : s.donations.find? (fun d2 => d2.id == did) with
    | none => rw [hfind] at h; simp at h
    | some d =>
        rw [hfind] at h
        cases hall : allowedTransition d.status t with
        | true => exact ⟨d, rfl, hall⟩
        | false => simp [hall] at h

/-- Witness for C5: requesting the non-edge move assigned→pending on
    donation 40 fails `InvalidTransition` and leaves the state as it
    was. -/
theorem donation_status_machine_witness :
    transitionDonation exDB 40 DonationStatus.pending
      = (exDB, some DomainError.InvalidTransition) :=
  donation_status_machine.2.1 exDB 40 DonationStatus.pending exDonation rfl rfl

/-- C9: the enum value sets are closed: every stored donation status is
    one of exactly pending/assigned/picked_up/delivered/cancelled, every
    stored food type one of exactly
    prepared_meals/groceries/produce/bakery/other, every stored value
    renders to one of the declared labels, and an input literal is
    accepted exactly when it is one of the declared labels. -/
theorem enum_value_sets_closed :
    (∀ d : DonationStatus,
        d = .pending ∨ d = .assigned ∨ d = .picked_up ∨ d = .delivered ∨ d = .cancelled)
    ∧ (∀ d : DonationStatus, donationStatusLabel d ∈ donationStatusLabels)
    ∧ (∀ s : String, (donationStatusOfLabel s).isSome = true ↔ s ∈ donationStatusLabels)
    ∧ (∀ f : FoodType,
        f = .prepared_meals ∨ f = .groceries ∨ f = .produce ∨ f = .bakery ∨ f = .other)
    ∧ (∀ f : FoodType, foodTypeLabel f ∈ foodTypeLabels)
    ∧ (∀ s : String, (foodTypeOfLabel s).isSome = true ↔ s ∈ foodTypeLabels) := by
  refine ⟨?_, ?_, ?_, ?_, ?_, ?_⟩
  · intro d; cases d <;> simp
  · intro d; cases d <;> simp [donationStatusLabel, donationStatusLabels]
  · intro s
    simp only [donationStatusOfLabel, donationStatusLabels]
    split_ifs <;> simp_all
  · intro f; cases f <;> simp
  · intro f; cases f <;> simp [foodTypeLabel, foodTypeLabels]
  · intro s
    simp only [foodTypeOfLabel, foodTypeLabels]
    split_ifs <;> simp_all

/-- C8: `ImpactMetric` rows are keyed by `date`: starting from a table
    with pairwise-distinct dates, the Aggregator's upsert keeps the dates
    pairwise distinct (so every date has at most one row), and when a row
    for the current date already exists the upsert updates it in place —
    the row count does not grow. -/
theorem impact_metrics_keyed_by_date :
    ∀ (rows : List ImpactMetricRow) (today : Nat) (mealsInc : Int)
      (kgInc co2Inc : Rat) (benInc : Int) (newId now : Nat),
      datesUnique rows →
      datesUnique (upsertImpact rows today mealsInc kgInc co2Inc benInc newId now)
      ∧ (∀ dte : Nat,
          ((upsertImpact rows today mealsInc kgInc co2Inc benInc newId now).filter
            (fun r => r.date == dte)).length ≤ 1)
      ∧ (rows.any (fun r => r.date == today) = true →
          (upsertImpact rows today mealsInc kgInc co2Inc benInc newId now).length
            = rows.length) := by
  intro rows today mealsInc kgInc co2Inc benInc newId now h
  have hpres :
      datesUnique (upsertImpact rows today mealsInc kgInc co2Inc benInc newId now) := by
    unfold upsertImpact
    cases hex : rows.any (fun r => r.date == today) with
    | true =>
        rw [if_pos rfl]
        unfold datesUnique at h ⊢
        rw [List.pairwise_map]
        refine h.imp ?_
        intro a b hab
        by_cases ha : (a.date == today) = true <;>
          by_cases hb : (b.date == today) = true <;>
            simp [ha, hb] <;> exact hab
    | false =>
        rw [if_neg (by simp [hex])]
        unfold datesUnique at h ⊢
        rw [List.pairwise_append]
        refine ⟨h, List.pairwise_singleton _ _, ?_⟩
        intro a ha b hb
        have hb2 : b = ⟨newId, today, mealsInc, kgInc, co2Inc, benInc, now, now⟩ := by
          simpa using hb
        have hfalse : ∀ r ∈ rows, (r.date == today) = false := by
          intro r hr
          have := List.any_eq_false.mp hex r hr
          simpa using this
        have := hfalse a ha
        subst hb2
        simp at this ⊢
        exact this
  refine ⟨hpres, fun dte => length_filter_date_le_one _ hpres dte, ?_⟩
  intro hex
  unfold upsertImpact
  rw [if_pos hex]
  exact List.length_map _ _

/-- Witness for C8 at a concrete table: one row for date 7 exists, its
    dates are unique, and upserting date 7 leaves the row count at 1. -/
theorem impact_metrics_keyed_by_date_witness :
    datesUnique [exMetric]
    ∧ (upsertImpact [exMetric] 7 20 10 25 3 61 9).length = 1 := by
  have h : datesUnique [exMetric] := List.pairwise_singleton _ _
  refine ⟨h, ?_⟩
  have h2 := (impact_metrics_keyed_by_date [exMetric] 7 20 10 25 3 61 9 h).2.2 rfl
  simpa using h2


/-- Deactivating any subset of pickup rows cannot increase the number of
    active pickups of any donation. -/
theorem activePickups_deactivate_le (did : Nat) (ks : List AppPickup)
    (cond : AppPickup → Bool) :
    (activePickupsFor did (ks.map (fun k =>
        if cond k then { k with cancelled := true } else k))).length
      ≤ (activePickupsFor did ks).length := by
  unfold activePickupsFor
  apply filter_length_le_of_map
  intro x _ hpg
  by_cases hc : cond x = true
  · rw [if_pos hc] at hpg; simp at hpg
  · rwa [if_neg hc] at hpg

/-- Every application-layer step leaves the pickup table unchanged,
    appends one fresh active row for a donation that had none, or only
    deactivates rows. -/
theorem appStep_pickups_shape (s : AppState) (op : AppOp) :
    (appStep s op).1.pickups = s.pickups
    ∨ (∃ kid did vid,
         (appStep s op).1.pickups = s.pickups ++ [⟨kid, did, vid, false⟩]
         ∧ (activePickupsFor did s.pickups).isEmpty = true)
    ∨ (∃ cond : AppPickup → Bool,
         (appStep s op).1.pickups
           = s.pickups.map (fun k => if cond k then { k with cancelled := true } else k)) := by
  cases op with
  | createDonation d => left; rfl
  | assign kid did vid =>
      simp only [appStep]
      split
      · left; rfl
      · split
        · left; rfl
        · split
          · left; rfl
          · rename_i hemp
            right; left
            refine ⟨kid, did, vid, rfl, ?_⟩
            simpa using hemp
  | confirmPickup kid =>
      simp only [appStep]
      split
      · left; rfl
      · split
        · left; rfl
        · split
          · left; rfl
          · left; rfl
  | confirmDelivery kid =>
      simp only [appStep]
      split
      · left; rfl
      · split
        · left; rfl
        · split
          · left; rfl
          · left; rfl
  | cancelAssignment kid =>
      simp only [appStep]
      split
      · left; rfl
      · split
        · left; rfl
        · split
          · right; right
            exact ⟨fun k => k.id == kid, rfl⟩
          · left; rfl
  | cancelDonation did =>
      simp only [appStep]
      split
      · left; rfl
      · split
        · right; right
          exact ⟨fun k => k.donation_id == did, rfl⟩
        · left; rfl

/-- C6: in every application-layer state reachable by the §4.1–§4.3
    operations (with `assign` guarded by the §9 uniqueness constraint),
    every donation has at most one active (non-cancelled) pickup row
    referencing it. -/
theorem one_active_pickup_per_donation :
    ∀ s : AppState, AppReachable s →
      ∀ did : Nat, (activePickupsFor did s.pickups).length ≤ 1 := by
  intro s hs
  induction hs with
  | init => intro did; simp [activePickupsFor]
  | step s op s2 e hreach hstep ih =>
      intro did
      have hs2 : s2 = (appStep s op).1 := by rw [hstep]
      rcases appStep_pickups_shape s op with h | ⟨kid, did0, vid, h, hemp⟩ | ⟨cond, h⟩
      · rw [hs2, h]; exact ih did
      · rw [hs2, h]
        rw [activePickupsFor, List.filter_append]
        cases hd : (did0 == did) with
        | true =>
            have hde : did0 = did := by simpa using hd
            have hnil : List.filter (fun k => k.donation_id == did && !k.cancelled)
                s.pickups = [] := by
              have := List.isEmpty_iff.mp hemp
              rw [activePickupsFor] at this
              rw [← hde]
              exact this
            rw [hnil]
            simp [List.filter_cons, hd]
        | false =>
            simp only [List.filter_cons, List.filter_nil]
            simp only [hd, Bool.false_and, Bool.not_false]
            simpa [activePickupsFor] using ih did
      · rw [hs2, h]
        exact le_trans (activePickups_deactivate_le did s.pickups cond) (ih did)

/-- Witness for C6 at a concrete reachable state: after posting donation
    40 and assigning pickup 50, donation 40 has at most one active
    pickup. -/
theorem one_active_pickup_per_donation_witness :
    (activePickupsFor 40 exApp2.pickups).length ≤ 1 :=
  one_active_pickup_per_donation exApp2
    (AppReachable.step _ (.assign 50 40 20) _ none
      (AppReachable.step _ (.createDonation exNewDonation) _ none
        AppReachable.init rfl) rfl) 40
